import Mathlib

/-!
Verification of the column-comparison utility (`src/main.py`).

The script loads two tabular files, stringifies one designated column of each,
keeps the values matching the regular expression `^\d{16}$`, and reports set
differences between the two files in a text log and a CSV result table.

Modelling conventions of this shallow embedding:

* A pandas/geopandas DataFrame is a `Table`: a list of named columns, each a
  list of cells.  A cell is either an ordinary string value or the missing
  value NaN; `astype(str)` is `cellToString` (pandas renders NaN as "nan").
* A Python `set` of strings is a `Finset String`; `sorted` applied to such a
  set is `Finset.sort`.
* `Series.str.match` applies `re.match` with the pattern anchored at the
  start; `pyMatch16` models the pattern `^\d{16}$`, where the Python `$`
  accepts the end of the string or one final newline.  `\d` is modelled by
  `Char.isDigit`; Python would additionally accept non-ASCII Unicode decimal
  digits, which the model leaves out (the identifiers at stake are ASCII).
* File reads come from an explicit `FileSys` association list; a path absent
  from it stands for an unreadable/unparsable file (`Err.ioError`).  Writes
  are recorded in a `RunState`: the printed console lines, the log content and
  the result table (`none` while unwritten).  `datetime.now().strftime(...)`
  is the explicit `now` parameter and `os.path.abspath` is modelled as the
  identity on paths.
* Exceptions are the `Err` type raised through `Except`; state written before
  an exception is raised stays written, as with real file writes.
-/

/-- One cell of a loaded column: a string value, or the missing value NaN. -/
inductive Cell where
  | strCell (s : String)
  | nanCell
deriving DecidableEq, Repr

/-- `astype(str)` on one cell; pandas renders the missing value NaN as "nan". -/
def cellToString : Cell → String
  | .strCell s => s
  | .nanCell => "nan"

/-- A loaded DataFrame: ordered named columns. -/
abbrev Table := List (String × List Cell)

/-- `df.columns`. -/
def columns (df : Table) : List String := df.map Prod.fst

/-- `df[col]`: the first column named `col` (the script checks presence first,
so the `[]` default is never reached on the paths it takes). -/
def lookupCol (df : Table) (col : String) : List Cell :=
  match df.find? (fun p => p.1 == col) with
  | some p => p.2
  | none => []

/-- `df[col].astype(str)`: the designated column, each cell stringified. -/
def stringCol (df : Table) (col : String) : List String :=
  (lookupCol df col).map cellToString

/-- Consume exactly `n` characters of the class `\d`, returning the remaining
input, or `none` when the input runs out or a non-digit is hit. -/
def matchDigits : Nat → List Char → Option (List Char)
  | 0, rest => some rest
  | _ + 1, [] => none
  | n + 1, c :: rest => if c.isDigit then matchDigits n rest else none

/-- Python `$`: accepts the end of the input or exactly one final newline. -/
def dollarAccepts : List Char → Bool
  | [] => true
  | [c] => c == '\n'
  | _ => false

/-- `re.match` with the pattern `^\d{16}$`, as `Series.str.match` applies it
to every stringified cell. -/
def pyMatch16 (s : String) : Bool :=
  match matchDigits 16 s.data with
  | some rest => dollarAccepts rest
  | none => false

/-- Code-point lexicographic comparison of character lists, as Python compares
strings. -/
def lexLeB : List Char → List Char → Bool
  | [], _ => true
  | _ :: _, [] => false
  | a :: as, b :: bs =>
    if a < b then true
    else if b < a then false
    else lexLeB as bs

/-- Python string `<=`: code-point lexicographic order. -/
def pyLe (s t : String) : Prop := lexLeB s.data t.data = true

instance : DecidableRel pyLe := fun s t =>
  inferInstanceAs (Decidable (lexLeB s.data t.data = true))

theorem lexLeB_total : ∀ a b : List Char, lexLeB a b = true ∨ lexLeB b a = true
  | [], _ => Or.inl rfl
  | _ :: _, [] => Or.inr rfl
  | a :: as, b :: bs => by
    by_cases hab : a < b
    · exact Or.inl (by simp [lexLeB, hab])
    · by_cases hba : b < a
      · exact Or.inr (by simp [lexLeB, hba])
      · rcases lexLeB_total as bs with h | h
        · exact Or.inl (by simp [lexLeB, hab, hba, h])
        · exact Or.inr (by simp [lexLeB, hab, hba, h])

theorem lexLeB_antisymm : ∀ a b : List Char,
    lexLeB a b = true → lexLeB b a = true → a = b
  | [], [], _, _ => rfl
  | [], _ :: _, _, h2 => by simp [lexLeB] at h2
  | _ :: _, [], h1, _ => by simp [lexLeB] at h1
  | a :: as, b :: bs, h1, h2 => by
    rcases lt_trichotomy a b with hab | rfl | hba
    · simp [lexLeB, asymm hab, hab] at h2
    · simp only [lexLeB, if_neg (lt_irrefl a)] at h1 h2
      rw [lexLeB_antisymm as bs h1 h2]
    · simp [lexLeB, asymm hba, hba] at h1

theorem lexLeB_trans : ∀ a b c : List Char,
    lexLeB a b = true → lexLeB b c = true → lexLeB a c = true
  | [], _, _, _, _ => rfl
  | _ :: _, [], _, h1, _ => by simp [lexLeB] at h1
  | _ :: _, _ :: _, [], _, h2 => by simp [lexLeB] at h2
  | a :: as, b :: bs, c :: cs, h1, h2 => by
    rcases lt_trichotomy a b with hab | rfl | hba
    · rcases lt_trichotomy b c with hbc | rfl | hcb
      · simp [lexLeB, lt_trans hab hbc]
      · simp [lexLeB, hab]
      · simp [lexLeB, asymm hcb, hcb] at h2
    · simp only [lexLeB, if_neg (lt_irrefl a)] at h1
      rcases lt_trichotomy a c with hac | rfl | hca
      · simp [lexLeB, hac]
      · simp only [lexLeB, if_neg (lt_irrefl a)] at h2 ⊢
        exact lexLeB_trans as bs cs h1 h2
      · simp [lexLeB, asymm hca, hca] at h2
    · simp [lexLeB, asymm hba, hba] at h1

instance : IsTotal String pyLe := ⟨fun s t => lexLeB_total s.data t.data⟩

instance : IsTrans String pyLe := ⟨fun s t u => lexLeB_trans s.data t.data u.data⟩

instance : IsAntisymm String pyLe :=
  ⟨fun s t h1 h2 => by
    cases s; cases t
    exact congrArg String.mk (lexLeB_antisymm _ _ h1 h2)⟩

/-- `sorted(s)` for a Python set `s`: the unique `pyLe`-sorted duplicate-free
list of its elements (computed by insertion sort on any representative). -/
def pySortSet (s : Finset String) : List String :=
  Quot.liftOn s.val (fun l => l.insertionSort pyLe)
    (fun a b hab =>
      List.eq_of_perm_of_sorted
        ((List.perm_insertionSort pyLe a).trans
          (Quotient.exact (Quotient.sound hab) |>.trans
            (List.perm_insertionSort pyLe b).symm))
        (List.sorted_insertionSort pyLe a)
        (List.sorted_insertionSort pyLe b))

/-- `df_valid[col]` as a list: the rows whose stringified value matches. -/
def validList (df : Table) (col : String) : List String :=
  (stringCol df col).filter (fun s => pyMatch16 s)

/-- `pd.Series.unique()`: keep the first occurrence of each value, in order of
appearance (modelled as a fold over a seen-accumulator). -/
def pdUnique (l : List String) : List String :=
  l.foldl (fun acc x => if x ∈ acc then acc else acc ++ [x]) []

/-- `df.loc[~valid_mask, col].unique().tolist()`: the table's ignored
collection. -/
def ignoredList (df : Table) (col : String) : List String :=
  pdUnique ((stringCol df col).filter (fun s => ! pyMatch16 s))

/-- `set(df_valid[col])`: the table's valid identifier set. -/
def validSet (df : Table) (col : String) : Finset String :=
  (validList df col).toFinset

/-- `sorted(setA - setB)`. -/
def onlyIn (dfa : Table) (ca : String) (dfb : Table) (cb : String) : List String :=
  pySortSet (validSet dfa ca \ validSet dfb cb)

/-- `sorted(set1 & set2)`. -/
def inBoth (df1 : Table) (c1 : String) (df2 : Table) (c2 : String) : List String :=
  pySortSet (validSet df1 c1 ∩ validSet df2 c2)

/-- The error kinds of the script, named as in the specification; the script
raises them as `ValueError`s with distinguishing messages, except `ioError`,
which stands for failures propagated unmodified from the file layer. -/
inductive Err where
  | unsupportedFormat (ext : String)
  | ioError (path : String)
  | columnNotFound (col : String) (file : String)
  | invalidTarget
deriving DecidableEq, Repr

deriving instance DecidableEq for Except

/-- The readable files: path to parsed table. -/
abbrev FileSys := List (String × Table)

/-- Index of the last occurrence of `c`, as Python `str.rfind` (`none` where
Python returns -1). -/
def rfindIdx (c : Char) : List Char → Option Nat
  | [] => none
  | x :: xs =>
    match rfindIdx c xs with
    | some i => some (i + 1)
    | none => if x == c then some 0 else none

/-- The extension part of `os.path.splitext(p)`: the suffix from the last dot
onward, provided that dot lies inside the basename and the basename has a
non-dot character before it (so ".bashrc" has no extension). -/
def pathExt (p : String) : String :=
  match rfindIdx '.' p.data with
  | none => ""
  | some d =>
    let start := match rfindIdx '/' p.data with
      | none => 0
      | some si => si + 1
    if start ≤ d then
      if ((p.data.drop start).take (d - start)).any (fun ch => ch != '.') then
        String.mk (p.data.drop d)
      else ""
    else ""

/-- `os.path.basename`. -/
def pathBasename (p : String) : String :=
  match rfindIdx '/' p.data with
  | none => p
  | some i => String.mk (p.data.drop (i + 1))

/-- Python `str.lower()` applied charwise (extensions are ASCII). -/
def pyLower (s : String) : String := String.mk (s.data.map Char.toLower)

/-- Reading and parsing a file from disk; a missing entry stands for an
IO/parser failure, propagated unmodified. -/
def readTable (fs : FileSys) (path : String) : Except Err Table :=
  match fs.find? (fun p => p.1 == path) with
  | some p => .ok p.2
  | none => .error (.ioError path)

/-- `load_data`: dispatch on the lowercased extension; `.xlsx`/`.xls` go to
the spreadsheet reader, `.gpkg` to the geospatial reader, anything else raises
`Unsupported file type`. -/
def load_data (fs : FileSys) (filepath : String) : Except Err Table :=
  let ext := pyLower (pathExt filepath)
  if ext ∈ [".xlsx", ".xls"] then readTable fs filepath
  else if ext = ".gpkg" then readTable fs filepath
  else .error (.unsupportedFormat ext)

/-- The dictionary returned by `compare_columns`. -/
structure Bundle where
  only_in_file1 : List String
  only_in_file2 : List String
  in_both : List String
  ignored_in_file1 : List String
  ignored_in_file2 : List String
deriving DecidableEq, Repr

/-- The result CSV: the identifier column (named after the target's column)
paired row-by-row with the status column. -/
structure ResultTable where
  id_col : String
  rows : List (String × String)
deriving DecidableEq, Repr

/-- Observable effects of one run: console lines printed, log file content and
result table written so far (`none` while unwritten). -/
structure RunState where
  console : List String
  logFile : Option String
  resultFile : Option ResultTable
deriving DecidableEq, Repr

/-- The state before any print or write has happened. -/
def noWrites : RunState := ⟨[], none, none⟩

/-- One `log.write` loop: each value on its own line, three-space indented. -/
def logValueLines (l : List String) : String :=
  String.join (l.map (fun v => "   " ++ v ++ "\n"))

/-- The full content written to the log file (lines 78-102 of the script). -/
def logContent (now file1 col1 file2 col2 : String)
    (ignored1 ignored2 only1 only2 both : List String) : String :=
  "Comparison log - " ++ now ++ "\n" ++
  String.mk (List.replicate 70 '=') ++ "\n\n" ++
  "File 1: " ++ file1 ++ "\nColumn: " ++ col1 ++ "\n" ++
  "File 2: " ++ file2 ++ "\nColumn: " ++ col2 ++ "\n\n" ++
  "--- Ignored values (not 16 digits) ---\n" ++
  "\nIgnored in " ++ pathBasename file1 ++ " (" ++ toString ignored1.length ++ "):\n" ++
  logValueLines ignored1 ++
  "\nIgnored in " ++ pathBasename file2 ++ " (" ++ toString ignored2.length ++ "):\n" ++
  logValueLines ignored2 ++
  "\n--- Values only in first file ---\n" ++ logValueLines only1 ++
  "\n--- Values only in second file ---\n" ++ logValueLines only2 ++
  "\n--- Values in both files ---\n" ++ logValueLines both

/-- The six console summary lines (lines 69-74 of the script). -/
def consoleSummary (file1 file2 : String)
    (nValid1 nIgnored1 nValid2 nIgnored2 nOnly1 nOnly2 nBoth : Nat) : List String :=
  ["\n📊 Comparison results (only 16-digit values considered):",
   "- " ++ pathBasename file1 ++ ": " ++ toString nValid1 ++ " valid, " ++
     toString nIgnored1 ++ " ignored",
   "- " ++ pathBasename file2 ++ ": " ++ toString nValid2 ++ " valid, " ++
     toString nIgnored2 ++ " ignored",
   "- " ++ toString nOnly1 ++ " values only in " ++ pathBasename file1,
   "- " ++ toString nOnly2 ++ " values only in " ++ pathBasename file2,
   "- " ++ toString nBoth ++ " values occur in both\n"]

/-- Lines 119-120 of the script: the identifier column of the result table is
`in_both + only_in_target`, and the status column pairs each identifier with
its tag, `occur_both` for the first block and `occur_in_<target>` after. -/
def buildResult (id_col : String) (both onlyT : List String)
    (target_file : String) : ResultTable :=
  ⟨id_col, (both ++ onlyT).zip
    (List.replicate both.length "occur_both" ++
     List.replicate onlyT.length ("occur_in_" ++ target_file))⟩

/-- The dictionary of lines 127-133 of the script. -/
def mkBundle (df1 : Table) (c1 : String) (df2 : Table) (c2 : String) : Bundle :=
  ⟨onlyIn df1 c1 df2 c2, onlyIn df2 c2 df1 c1, inBoth df1 c1 df2 c2,
   ignoredList df1 c1, ignoredList df2 c2⟩

/-- Lines 46-133 of the script: everything after the loads and column checks.
The console summary is printed and the log written before the target check, so
an invalid `target_file` raises only after the log file exists. -/
def compareLoaded (now file1 col1 file2 col2 target_file log_path output_path : String)
    (df1 df2 : Table) : RunState × Except Err Bundle :=
  let only1 := onlyIn df1 col1 df2 col2
  let only2 := onlyIn df2 col2 df1 col1
  let both := inBoth df1 col1 df2 col2
  let ignored1 := ignoredList df1 col1
  let ignored2 := ignoredList df2 col2
  let summary := consoleSummary file1 file2
    (validList df1 col1).length ignored1.length
    (validList df2 col2).length ignored2.length
    only1.length only2.length both.length
  let logC := logContent now file1 col1 file2 col2 ignored1 ignored2 only1 only2 both
  let logSaved := "📝 Log file saved to: " ++ log_path
  if target_file = "file1" then
    let rt := buildResult col1 both only1 target_file
    (⟨summary ++ [logSaved,
        "✅ Results written to: " ++ output_path,
        "Included: " ++ toString rt.rows.length ++
          " rows (occur_both + occur_in_one in " ++ pathBasename file1 ++ ")"],
      some logC, some rt⟩,
     .ok (mkBundle df1 col1 df2 col2))
  else if target_file = "file2" then
    let rt := buildResult col2 both only2 target_file
    (⟨summary ++ [logSaved,
        "✅ Results written to: " ++ output_path,
        "Included: " ++ toString rt.rows.length ++
          " rows (occur_both + occur_in_one in " ++ pathBasename file2 ++ ")"],
      some logC, some rt⟩,
     .ok (mkBundle df1 col1 df2 col2))
  else
    (⟨summary ++ [logSaved], some logC, none⟩, .error .invalidTarget)

/-- `compare_columns`: load both files, check the requested columns exist,
then compare, log and write the result table.  Returns the observable run
state together with the returned bundle or the raised error. -/
def compare_columns (fs : FileSys) (now : String)
    (file1 col1 file2 col2 : String)
    (target_file : String := "file2")
    (log_path : String := "comparison_log.txt")
    (output_path : String := "comparison_results.csv") :
    RunState × Except Err Bundle :=
  match load_data fs file1 with
  | .error e => (noWrites, .error e)
  | .ok df1 =>
    match load_data fs file2 with
    | .error e => (noWrites, .error e)
    | .ok df2 =>
      if col1 ∉ columns df1 then
        (noWrites, .error (.columnNotFound col1 file1))
      else if col2 ∉ columns df2 then
        (noWrites, .error (.columnNotFound col2 file2))
      else
        compareLoaded now file1 col1 file2 col2 target_file log_path output_path df1 df2

/-- The validity pattern as the specification words it: exactly 16 decimal
digits, no sign, no separators, no leading or trailing characters. -/
def specExact16 (s : String) : Bool :=
  s.data.length == 16 && s.data.all Char.isDigit

/-- First-occurrence deduplication as the specification words it: keep each
value the first time it appears, drop its later occurrences. -/
def dedupFirst : List String → List String
  | [] => []
  | x :: xs => x :: dedupFirst (xs.filter (fun y => decide (y ≠ x)))
termination_by l => l.length
decreasing_by
  simp only [List.length_cons]
  exact Nat.lt_succ_of_le (List.length_filter_le _ _)

/-- What the code's pattern actually accepts: 16 decimal digits followed by
nothing or by a single trailing newline (the Python `$` semantics). -/
def amendedValid (s : String) : Prop :=
  ∃ ds tl, s.data = ds ++ tl ∧ ds.length = 16 ∧
    (∀ c ∈ ds, c.isDigit) ∧ (tl = [] ∨ tl = ['\n'])

/-! ### Helper lemmas: the regular-expression match -/

theorem matchDigits_some_iff : ∀ (n : Nat) (l r : List Char),
    matchDigits n l = some r ↔
      ∃ ds, l = ds ++ r ∧ ds.length = n ∧ ∀ c ∈ ds, c.isDigit = true := by
  intro n
  induction n with
  | zero =>
    intro l r
    simp only [matchDigits, Option.some.injEq]
    constructor
    · intro h
      exact ⟨[], by simp [h], rfl, by simp⟩
    · rintro ⟨ds, hl, hlen, -⟩
      rw [List.length_eq_zero] at hlen
      subst hlen
      simpa using hl
  | succ n ih =>
    intro l r
    cases l with
    | nil =>
      simp only [matchDigits]
      constructor
      · intro h; cases h
      · rintro ⟨ds, hl, hlen, -⟩
        rcases List.append_eq_nil.mp hl.symm with ⟨hds, -⟩
        subst hds
        simp at hlen
    | cons c cs =>
      by_cases hd : c.isDigit = true
      · simp only [matchDigits, hd, if_true]
        rw [ih cs r]
        constructor
        · rintro ⟨ds, hcs, hlen, hdig⟩
          exact ⟨c :: ds, by simp [hcs], by simp [hlen],
            by intro d hdm; rcases List.mem_cons.mp hdm with rfl | hdm2
               · exact hd
               · exact hdig d hdm2⟩
        · rintro ⟨ds, hl, hlen, hdig⟩
          cases ds with
          | nil => simp at hlen
          | cons d ds2 =>
            obtain ⟨rfl, hcs⟩ : d = c ∧ cs = ds2 ++ r := by
              have := hl
              simp only [List.cons_append, List.cons.injEq] at this
              exact ⟨this.1.symm, this.2⟩
            exact ⟨ds2, hcs, by simpa using hlen,
              fun e he => hdig e (List.mem_cons_of_mem _ he)⟩
      · simp only [matchDigits, hd, if_false]
        constructor
        · intro h; cases h
        · rintro ⟨ds, hl, hlen, hdig⟩
          cases ds with
          | nil => simp at hlen
          | cons d ds2 =>
            have hdc : d = c := by
              simp only [List.cons_append, List.cons.injEq] at hl
              exact hl.1.symm
            exact absurd (hdc ▸ hdig d (List.mem_cons_self d ds2)) hd

theorem dollarAccepts_iff (r : List Char) :
    dollarAccepts r = true ↔ r = [] ∨ r = ['\n'] := by
  match r with
  | [] => simp [dollarAccepts]
  | [c] => simp [dollarAccepts]
  | c :: d :: rest => simp [dollarAccepts]

/-- The code's validity predicate accepts exactly the strings of 16 decimal
digits optionally followed by one trailing newline. -/
theorem pyMatch16_iff (s : String) : pyMatch16 s = true ↔ amendedValid s := by
  unfold pyMatch16 amendedValid
  cases hm : matchDigits 16 s.data with
  | none =>
    simp only [Bool.false_eq_true, false_iff]
    rintro ⟨ds, tl, hdata, hlen, hdig, -⟩
    have : matchDigits 16 s.data = some tl :=
      (matchDigits_some_iff 16 s.data tl).mpr ⟨ds, hdata, hlen, fun c hc => hdig c hc⟩
    rw [hm] at this; cases this
  | some rest =>
    rw [dollarAccepts_iff]
    obtain ⟨ds, hdata, hlen, hdig⟩ := (matchDigits_some_iff 16 s.data rest).mp hm
    constructor
    · rintro (h | h)
      · exact ⟨ds, rest, hdata, hlen, hdig, Or.inl h⟩
      · exact ⟨ds, rest, hdata, hlen, hdig, Or.inr h⟩
    · rintro ⟨ds2, tl2, hdata2, hlen2, hdig2, htl⟩
      have : matchDigits 16 s.data = some tl2 :=
        (matchDigits_some_iff 16 s.data tl2).mpr ⟨ds2, hdata2, hlen2, hdig2⟩
      rw [hm] at this
      injection this with h
      rw [h]; exact htl

/-! ### Helper lemmas: deduplication -/

theorem dedupFirst_mem : ∀ (l : List String) (x : String),
    x ∈ dedupFirst l ↔ x ∈ l
  | [], x => by simp [dedupFirst]
  | y :: ys, x => by
    rw [dedupFirst]
    by_cases hxy : x = y
    · subst hxy; simp
    · simp only [List.mem_cons, hxy, false_or]
      rw [dedupFirst_mem (ys.filter (fun z => decide (z ≠ y))) x]
      simp [List.mem_filter, hxy]
termination_by l => l.length
decreasing_by
  simp only [List.length_cons]
  exact Nat.lt_succ_of_le (List.length_filter_le _ _)

theorem dedupFirst_nodup : ∀ l : List String, (dedupFirst l).Nodup
  | [] => by simp [dedupFirst]
  | y :: ys => by
    rw [dedupFirst]
    refine List.nodup_cons.mpr ⟨?_, dedupFirst_nodup _⟩
    rw [dedupFirst_mem]
    simp
termination_by l => l.length
decreasing_by
  simp only [List.length_cons]
  exact Nat.lt_succ_of_le (List.length_filter_le _ _)

theorem pdUnique_foldl : ∀ (l acc : List String),
    l.foldl (fun acc x => if x ∈ acc then acc else acc ++ [x]) acc
      = acc ++ dedupFirst (l.filter (fun x => decide (x ∉ acc)))
  | [], acc => by simp [dedupFirst]
  | x :: xs, acc => by
    rw [List.foldl_cons]
    by_cases hx : x ∈ acc
    · rw [if_pos hx, pdUnique_foldl xs acc, List.filter_cons]
      simp [hx]
    · rw [if_neg hx, pdUnique_foldl xs (acc ++ [x]), List.filter_cons]
      rw [if_pos (by simpa using hx)]
      simp only [dedupFirst]
      rw [List.append_assoc, List.singleton_append]
      congr 2
      rw [List.filter_filter]
      congr 1
      apply List.filter_congr
      intro y _
      by_cases h1 : y ∈ acc <;> by_cases h2 : y = x <;>
        simp [List.mem_append, h1, h2]

/-- `pd.Series.unique` keeps the first occurrence of each value, in order. -/
theorem pdUnique_eq_dedupFirst (l : List String) : pdUnique l = dedupFirst l := by
  rw [pdUnique, pdUnique_foldl]
  simp

theorem pdUnique_mem (l : List String) (x : String) : x ∈ pdUnique l ↔ x ∈ l := by
  rw [pdUnique_eq_dedupFirst, dedupFirst_mem]

theorem pdUnique_nodup (l : List String) : (pdUnique l).Nodup := by
  rw [pdUnique_eq_dedupFirst]; exact dedupFirst_nodup l

/-! ### Helper lemmas: sorting -/

theorem pySortSet_mem (s : Finset String) (x : String) :
    x ∈ pySortSet s ↔ x ∈ s := by
  rcases s with ⟨val, hnodup⟩
  obtain ⟨l, rfl⟩ := val.exists_rep
  show x ∈ List.insertionSort pyLe l ↔ _
  rw [List.mem_insertionSort]
  simp [Finset.mem_mk]

theorem pySortSet_sorted (s : Finset String) : (pySortSet s).Sorted pyLe := by
  rcases s with ⟨val, hnodup⟩
  obtain ⟨l, rfl⟩ := val.exists_rep
  exact List.sorted_insertionSort pyLe l

theorem pySortSet_nodup (s : Finset String) : (pySortSet s).Nodup := by
  rcases s with ⟨val, hnodup⟩
  obtain ⟨l, rfl⟩ := val.exists_rep
  exact (List.perm_insertionSort pyLe l).symm.nodup
    (by simpa [Multiset.quot_mk_to_coe] using hnodup)

theorem pySortSet_length (s : Finset String) : (pySortSet s).length = s.card := by
  rcases s with ⟨val, hnodup⟩
  obtain ⟨l, rfl⟩ := val.exists_rep
  exact (List.perm_insertionSort pyLe l).length_eq

/-! ### Helper lemmas: the result table -/

theorem zip_replicate_snd (l : List String) (a : String) :
    l.zip (List.replicate l.length a) = l.map (fun v => (v, a)) := by
  induction l with
  | nil => rfl
  | cons x xs ih => simp [List.replicate_succ, ih]

theorem buildResult_rows (idc : String) (both onlyT : List String) (t : String) :
    (buildResult idc both onlyT t).rows =
      both.map (fun v => (v, "occur_both")) ++
      onlyT.map (fun v => (v, "occur_in_" ++ t)) := by
  unfold buildResult
  rw [List.zip_append (by simp), zip_replicate_snd, zip_replicate_snd]

/-! ### Helper lemmas: the shape of `compare_columns` runs -/

theorem compareLoaded_logFile (now f1 c1 f2 c2 tgt lp op : String) (df1 df2 : Table) :
    (compareLoaded now f1 c1 f2 c2 tgt lp op df1 df2).1.logFile =
      some (logContent now f1 c1 f2 c2 (ignoredList df1 c1) (ignoredList df2 c2)
        (onlyIn df1 c1 df2 c2) (onlyIn df2 c2 df1 c1) (inBoth df1 c1 df2 c2)) := by
  unfold compareLoaded
  split_ifs <;> rfl

theorem compareLoaded_console6 (now f1 c1 f2 c2 tgt lp op : String) (df1 df2 : Table) :
    (compareLoaded now f1 c1 f2 c2 tgt lp op df1 df2).1.console.take 6 =
      consoleSummary f1 f2
        (validList df1 c1).length (ignoredList df1 c1).length
        (validList df2 c2).length (ignoredList df2 c2).length
        (onlyIn df1 c1 df2 c2).length (onlyIn df2 c2 df1 c1).length
        (inBoth df1 c1 df2 c2).length := by
  unfold compareLoaded
  split_ifs <;> (unfold consoleSummary; rfl)

theorem compareLoaded_snd_valid (now f1 c1 f2 c2 tgt lp op : String) (df1 df2 : Table)
    (h : tgt = "file1" ∨ tgt = "file2") :
    (compareLoaded now f1 c1 f2 c2 tgt lp op df1 df2).2 =
      .ok (mkBundle df1 c1 df2 c2) := by
  rcases h with rfl | rfl
  · rfl
  · rfl

theorem compareLoaded_resultFile_file1 (now f1 c1 f2 c2 lp op : String) (df1 df2 : Table) :
    (compareLoaded now f1 c1 f2 c2 "file1" lp op df1 df2).1.resultFile =
      some (buildResult c1 (inBoth df1 c1 df2 c2) (onlyIn df1 c1 df2 c2) "file1") :=
  rfl

theorem compareLoaded_resultFile_file2 (now f1 c1 f2 c2 lp op : String) (df1 df2 : Table) :
    (compareLoaded now f1 c1 f2 c2 "file2" lp op df1 df2).1.resultFile =
      some (buildResult c2 (inBoth df1 c1 df2 c2) (onlyIn df2 c2 df1 c1) "file2") :=
  rfl

theorem compareLoaded_invalid (now f1 c1 f2 c2 tgt lp op : String) (df1 df2 : Table)
    (h1 : tgt ≠ "file1") (h2 : tgt ≠ "file2") :
    compareLoaded now f1 c1 f2 c2 tgt lp op df1 df2 =
      (⟨consoleSummary f1 f2
          (validList df1 c1).length (ignoredList df1 c1).length
          (validList df2 c2).length (ignoredList df2 c2).length
          (onlyIn df1 c1 df2 c2).length (onlyIn df2 c2 df1 c1).length
          (inBoth df1 c1 df2 c2).length ++ ["📝 Log file saved to: " ++ lp],
        some (logContent now f1 c1 f2 c2 (ignoredList df1 c1) (ignoredList df2 c2)
          (onlyIn df1 c1 df2 c2) (onlyIn df2 c2 df1 c1) (inBoth df1 c1 df2 c2)),
        none⟩,
       .error .invalidTarget) := by
  unfold compareLoaded
  rw [if_neg h1, if_neg h2]

theorem compare_eq_loaded (fs : FileSys) (now f1 c1 f2 c2 tgt lp op : String)
    (df1 df2 : Table)
    (h1 : load_data fs f1 = .ok df1) (h2 : load_data fs f2 = .ok df2)
    (hc1 : c1 ∈ columns df1) (hc2 : c2 ∈ columns df2) :
    compare_columns fs now f1 c1 f2 c2 tgt lp op =
      compareLoaded now f1 c1 f2 c2 tgt lp op df1 df2 := by
  unfold compare_columns
  rw [h1, h2]
  dsimp only
  rw [if_neg (not_not_intro hc1), if_neg (not_not_intro hc2)]

theorem compare_ok_inv (fs : FileSys) (now f1 c1 f2 c2 tgt lp op : String)
    (df1 df2 : Table) (st : RunState) (b : Bundle)
    (h1 : load_data fs f1 = .ok df1) (h2 : load_data fs f2 = .ok df2)
    (h : compare_columns fs now f1 c1 f2 c2 tgt lp op = (st, .ok b)) :
    c1 ∈ columns df1 ∧ c2 ∈ columns df2 ∧ (tgt = "file1" ∨ tgt = "file2") ∧
      b = mkBundle df1 c1 df2 c2 ∧
      st = (compareLoaded now f1 c1 f2 c2 tgt lp op df1 df2).1 := by
  unfold compare_columns at h
  rw [h1, h2] at h
  dsimp only at h
  by_cases hn1 : c1 ∉ columns df1
  · rw [if_pos hn1] at h
    simp [Prod.ext_iff] at h
  rw [if_neg hn1] at h
  by_cases hn2 : c2 ∉ columns df2
  · rw [if_pos hn2] at h
    simp [Prod.ext_iff] at h
  rw [if_neg hn2] at h
  rw [not_not] at hn1 hn2
  refine ⟨hn1, hn2, ?_, ?_, ?_⟩
  · by_contra hboth
    push_neg at hboth
    rw [compareLoaded_invalid now f1 c1 f2 c2 tgt lp op df1 df2 hboth.1 hboth.2] at h
    simp [Prod.ext_iff] at h
  · have hv : tgt = "file1" ∨ tgt = "file2" := by
      by_contra hboth
      push_neg at hboth
      rw [compareLoaded_invalid now f1 c1 f2 c2 tgt lp op df1 df2 hboth.1 hboth.2] at h
      simp [Prod.ext_iff] at h
    have := compareLoaded_snd_valid now f1 c1 f2 c2 tgt lp op df1 df2 hv
    rw [h] at this
    exact Except.ok.inj this
  · exact congrArg Prod.fst h.symm

/-! ### Concrete data used by the witnesses

The tables realize the scenario of the specification (two shared-format
files, one shared identifier, one identifier unique to each side, one
malformed value, one missing value). -/

def tblA : Table :=
  [("id", [.strCell "1111111111111111", .strCell "2222222222222222",
           .strCell "abc", .nanCell])]

def tblB : Table :=
  [("bag", [.strCell "2222222222222222", .strCell "3333333333333333"])]

def sampleFS : FileSys := [("a.xlsx", tblA), ("b.gpkg", tblB)]

/-! ### The claims -/

/-- C1: for every pair of input tables and columns, the three sets returned by
`compare_columns` — `only_in_file1`, `only_in_file2`, `in_both` — are pairwise
disjoint and their union equals the union of the two valid identifier sets
built from the designated columns. -/
theorem c1_partition (fs : FileSys) (now f1 c1 f2 c2 tgt lp op : String)
    (df1 df2 : Table) (st : RunState) (b : Bundle)
    (h1 : load_data fs f1 = .ok df1) (h2 : load_data fs f2 = .ok df2)
    (h : compare_columns fs now f1 c1 f2 c2 tgt lp op = (st, .ok b)) :
    (b.only_in_file1.Disjoint b.only_in_file2 ∧
     b.only_in_file1.Disjoint b.in_both ∧
     b.only_in_file2.Disjoint b.in_both) ∧
    ∀ x, (x ∈ b.only_in_file1 ∨ x ∈ b.only_in_file2 ∨ x ∈ b.in_both) ↔
      x ∈ validSet df1 c1 ∪ validSet df2 c2 := by
  obtain ⟨-, -, -, rfl, -⟩ :=
    compare_ok_inv fs now f1 c1 f2 c2 tgt lp op df1 df2 st b h1 h2 h
  constructor
  · refine ⟨?_, ?_, ?_⟩ <;>
    · intro x hx hy
      simp only [mkBundle, onlyIn, inBoth, pySortSet_mem, Finset.mem_sdiff,
        Finset.mem_inter] at hx hy
      tauto
  · intro x
    simp only [mkBundle, onlyIn, inBoth, pySortSet_mem, Finset.mem_sdiff,
      Finset.mem_inter, Finset.mem_union]
    tauto

/-- Witness for C1: the partition property evaluated on the sample run, at the
identifier that only the first file holds. -/
theorem c1_partition_witness :
    ("1111111111111111" ∈ (mkBundle tblA "id" tblB "bag").only_in_file1 ∨
     "1111111111111111" ∈ (mkBundle tblA "id" tblB "bag").only_in_file2 ∨
     "1111111111111111" ∈ (mkBundle tblA "id" tblB "bag").in_both) ↔
      "1111111111111111" ∈ validSet tblA "id" ∪ validSet tblB "bag" :=
  (c1_partition sampleFS "2024-01-01" "a.xlsx" "id" "b.gpkg" "bag" "file2"
      "comparison_log.txt" "comparison_results.csv" tblA tblB
      (compare_columns sampleFS "2024-01-01" "a.xlsx" "id" "b.gpkg" "bag").1
      (mkBundle tblA "id" tblB "bag") rfl rfl rfl).2 "1111111111111111"

/-- Counterexample to C2 as stated: the stringified cell value
"1111111111111111\n" is placed in the valid identifier set although it does
not consist of exactly 16 decimal digits with no trailing characters — the
Python `$` anchor also matches just before a single final newline. -/
theorem c2_cex_trailing_newline :
    "1111111111111111\n" ∈
      validSet [("id", [Cell.strCell "1111111111111111\n"])] "id" ∧
    specExact16 "1111111111111111\n" = false := by
  constructor
  · decide
  · decide

/-- C2 (amended): a stringified cell value is placed in the valid identifier
set iff it consists of 16 decimal digits followed by nothing or by one
trailing newline (Python `$` semantics); every element of the ignored
collection fails that amended pattern and every valid-set element passes it.
(`validSet`/`ignoredList` are exactly the sets behind the returned bundle's
`ignored_in_file1`/`ignored_in_file2` and the valid sets compared.) -/
theorem c2_valid_iff_sixteen_digits_opt_newline (df : Table) (col s : String) :
    (s ∈ validSet df col ↔ s ∈ stringCol df col ∧ amendedValid s) ∧
    (s ∈ ignoredList df col ↔ s ∈ stringCol df col ∧ ¬ amendedValid s) := by
  constructor
  · simp only [validSet, validList, List.mem_toFinset, List.mem_filter]
    exact and_congr_right fun _ => pyMatch16_iff s
  · simp only [ignoredList, pdUnique_mem, List.mem_filter]
    refine and_congr_right fun _ => ?_
    rw [← pyMatch16_iff s]
    simp

/-- C3: every target selector other than the two valid literals ("file1" and
"file2", the spec's "first"/"second") makes `compare_columns` fail with
`invalidTarget`, and the default target selector is the second file. -/
theorem c3_target_selector (fs : FileSys) (now f1 c1 f2 c2 tgt lp op : String)
    (df1 df2 : Table)
    (h1 : load_data fs f1 = .ok df1) (h2 : load_data fs f2 = .ok df2)
    (hc1 : c1 ∈ columns df1) (hc2 : c2 ∈ columns df2)
    (ht1 : tgt ≠ "file1") (ht2 : tgt ≠ "file2") :
    (compare_columns fs now f1 c1 f2 c2 tgt lp op).2 = .error .invalidTarget ∧
    compare_columns fs now f1 c1 f2 c2 =
      compare_columns fs now f1 c1 f2 c2 "file2" := by
  constructor
  · rw [compare_eq_loaded fs now f1 c1 f2 c2 tgt lp op df1 df2 h1 h2 hc1 hc2,
      compareLoaded_invalid now f1 c1 f2 c2 tgt lp op df1 df2 ht1 ht2]
  · rfl

/-- Witness for C3: a concrete run with the selector "both" fails with
`invalidTarget`, and omitting the selector equals passing "file2". -/
theorem c3_target_selector_witness :
    (compare_columns sampleFS "2024-01-01" "a.xlsx" "id" "b.gpkg" "bag" "both").2 =
      .error .invalidTarget ∧
    compare_columns sampleFS "2024-01-01" "a.xlsx" "id" "b.gpkg" "bag" =
      compare_columns sampleFS "2024-01-01" "a.xlsx" "id" "b.gpkg" "bag" "file2" :=
  c3_target_selector sampleFS "2024-01-01" "a.xlsx" "id" "b.gpkg" "bag" "both"
    "comparison_log.txt" "comparison_results.csv" tblA tblB
    rfl rfl (by decide) (by decide) (by decide) (by decide)

/-- C6: a requested column absent from its loaded table makes
`compare_columns` raise `columnNotFound` naming that column and its source
file, with no output file written (the run state is still `noWrites`, whose
log and result fields are `none`). -/
theorem c6_column_not_found (fs : FileSys) (now f1 c1 f2 c2 tgt lp op : String)
    (df1 df2 : Table)
    (h1 : load_data fs f1 = .ok df1) (h2 : load_data fs f2 = .ok df2) :
    (c1 ∉ columns df1 →
      compare_columns fs now f1 c1 f2 c2 tgt lp op =
        (noWrites, .error (.columnNotFound c1 f1))) ∧
    (c1 ∈ columns df1 → c2 ∉ columns df2 →
      compare_columns fs now f1 c1 f2 c2 tgt lp op =
        (noWrites, .error (.columnNotFound c2 f2))) := by
  constructor
  · intro hn1
    unfold compare_columns
    rw [h1, h2]
    dsimp only
    rw [if_pos hn1]
  · intro hc1 hn2
    unfold compare_columns
    rw [h1, h2]
    dsimp only
    rw [if_neg (not_not_intro hc1), if_pos hn2]

/-- Witness for C6: requesting the absent column "nope" from the first sample
file raises `columnNotFound "nope" "a.xlsx"` before anything is written. -/
theorem c6_column_not_found_witness :
    compare_columns sampleFS "2024-01-01" "a.xlsx" "nope" "b.gpkg" "bag" "file2"
        "comparison_log.txt" "comparison_results.csv" =
      (noWrites, .error (.columnNotFound "nope" "a.xlsx")) :=
  (c6_column_not_found sampleFS "2024-01-01" "a.xlsx" "nope" "b.gpkg" "bag" "file2"
      "comparison_log.txt" "comparison_results.csv" tblA tblB rfl rfl).1 (by decide)

/-- C7: each ignored collection contains exactly the stringified values of the
designated column that fail the validity predicate, deduplicated keeping the
first occurrence in order of appearance (`dedupFirst` is the spec-worded
recursion; the code's accumulator fold is proved equal to it). -/
theorem c7_ignored_first_occurrence (fs : FileSys) (now f1 c1 f2 c2 tgt lp op : String)
    (df1 df2 : Table) (st : RunState) (b : Bundle)
    (h1 : load_data fs f1 = .ok df1) (h2 : load_data fs f2 = .ok df2)
    (h : compare_columns fs now f1 c1 f2 c2 tgt lp op = (st, .ok b)) :
    b.ignored_in_file1 =
      dedupFirst ((stringCol df1 c1).filter (fun s => ! pyMatch16 s)) ∧
    b.ignored_in_file2 =
      dedupFirst ((stringCol df2 c2).filter (fun s => ! pyMatch16 s)) ∧
    b.ignored_in_file1.Nodup ∧ b.ignored_in_file2.Nodup ∧
    (∀ x, x ∈ b.ignored_in_file1 ↔
      x ∈ stringCol df1 c1 ∧ pyMatch16 x = false) := by
  obtain ⟨-, -, -, rfl, -⟩ :=
    compare_ok_inv fs now f1 c1 f2 c2 tgt lp op df1 df2 st b h1 h2 h
  refine ⟨?_, ?_, ?_, ?_, ?_⟩
  · exact pdUnique_eq_dedupFirst _
  · exact pdUnique_eq_dedupFirst _
  · exact pdUnique_nodup _
  · exact pdUnique_nodup _
  · intro x
    simp only [mkBundle, ignoredList, pdUnique_mem, List.mem_filter,
      Bool.not_eq_eq_eq_not, Bool.not_true]

/-- Witness for C7: membership in the first sample table's ignored collection,
evaluated at the malformed value "abc". -/
theorem c7_ignored_first_occurrence_witness :
    "abc" ∈ (mkBundle tblA "id" tblB "bag").ignored_in_file1 ↔
      "abc" ∈ stringCol tblA "id" ∧ pyMatch16 "abc" = false :=
  (c7_ignored_first_occurrence sampleFS "2024-01-01" "a.xlsx" "id" "b.gpkg" "bag"
      "file2" "comparison_log.txt" "comparison_results.csv" tblA tblB
      (compare_columns sampleFS "2024-01-01" "a.xlsx" "id" "b.gpkg" "bag").1
      (mkBundle tblA "id" tblB "bag") rfl rfl rfl).2.2.2.2 "abc"

/-- C8: any file path whose (case-insensitively compared) extension is not
a spreadsheet extension (".xlsx"/".xls") or the geospatial-table extension
(".gpkg") makes `load_data` fail immediately with `unsupportedFormat`. -/
theorem c8_unsupported_format (fs : FileSys) (path : String)
    (h : pyLower (pathExt path) ∉ [".xlsx", ".xls", ".gpkg"]) :
    load_data fs path = .error (.unsupportedFormat (pyLower (pathExt path))) := by
  have hA : pyLower (pathExt path) ∉ [".xlsx", ".xls"] := by
    intro hm
    exact h (by simp only [List.mem_cons] at hm ⊢; tauto)
  have hB : ¬ pyLower (pathExt path) = ".gpkg" := by
    intro hg
    exact h (by simp [hg])
  unfold load_data
  dsimp only
  rw [if_neg hA, if_neg hB]

/-- Witness for C8: loading "data.csv" fails with the unsupported-format
error carrying ".csv". -/
theorem c8_unsupported_format_witness :
    load_data [] "data.csv" = .error (.unsupportedFormat ".csv") :=
  c8_unsupported_format [] "data.csv" (by decide)

/-- C9: `astype(str)` renders the missing value NaN as the literal string
"nan", which fails the 16-digit pattern, so a NaN cell in a designated column
contributes "nan" to that table's ignored collection and never to a valid
identifier set. -/
theorem c9_nan_ignored (fs : FileSys) (now f1 c1 f2 c2 tgt lp op : String)
    (df1 df2 : Table) (st : RunState) (b : Bundle)
    (h1 : load_data fs f1 = .ok df1) (h2 : load_data fs f2 = .ok df2)
    (h : compare_columns fs now f1 c1 f2 c2 tgt lp op = (st, .ok b)) :
    (cellToString Cell.nanCell = "nan" ∧ pyMatch16 "nan" = false) ∧
    (Cell.nanCell ∈ lookupCol df1 c1 →
      "nan" ∈ b.ignored_in_file1 ∧ "nan" ∉ validSet df1 c1) ∧
    (Cell.nanCell ∈ lookupCol df2 c2 →
      "nan" ∈ b.ignored_in_file2 ∧ "nan" ∉ validSet df2 c2) := by
  obtain ⟨-, -, -, rfl, -⟩ :=
    compare_ok_inv fs now f1 c1 f2 c2 tgt lp op df1 df2 st b h1 h2 h
  have hmem : ∀ (df : Table) (c : String), Cell.nanCell ∈ lookupCol df c →
      "nan" ∈ ignoredList df c ∧ "nan" ∉ validSet df c := by
    intro df c hc
    have hs : "nan" ∈ stringCol df c :=
      List.mem_map.mpr ⟨Cell.nanCell, hc, rfl⟩
    constructor
    · rw [ignoredList, pdUnique_mem, List.mem_filter]
      exact ⟨hs, by decide⟩
    · intro hv
      rw [validSet, List.mem_toFinset, validList, List.mem_filter] at hv
      exact absurd hv.2 (by decide)
  exact ⟨⟨rfl, by decide⟩, hmem df1 c1, hmem df2 c2⟩

/-- Witness for C9: the sample's first table has a NaN cell, and "nan" indeed
lands in its ignored collection and not in its valid set. -/
theorem c9_nan_ignored_witness :
    "nan" ∈ (mkBundle tblA "id" tblB "bag").ignored_in_file1 ∧
    "nan" ∉ validSet tblA "id" :=
  (c9_nan_ignored sampleFS "2024-01-01" "a.xlsx" "id" "b.gpkg" "bag" "file2"
      "comparison_log.txt" "comparison_results.csv" tblA tblB
      (compare_columns sampleFS "2024-01-01" "a.xlsx" "id" "b.gpkg" "bag").1
      (mkBundle tblA "id" tblB "bag") rfl rfl rfl).2.1 (by decide)

/-- The loader never raises the invalid-target error: its only failures are
the unsupported-format error and propagated read failures. -/
theorem load_data_not_invalidTarget (fs : FileSys) (p : String) :
    load_data fs p ≠ .error .invalidTarget := by
  intro h
  unfold load_data at h
  dsimp only at h
  split_ifs at h
  · unfold readTable at h
    cases hf : fs.find? (fun q => q.1 == p) <;> simp [hf] at h
  · unfold readTable at h
    cases hf : fs.find? (fun q => q.1 == p) <;> simp [hf] at h
  · simp at h

/-- Counterexample to C4 as stated: with a target selector other than the two
valid literals, `compare_columns` raises the invalid-target error *after* the
log artifact has been written, so the run neither completes nor leaves nothing
written — the log file exists and the result table does not. -/
theorem c4_cex_partial_log_write :
    (compare_columns sampleFS "2024-01-01" "a.xlsx" "id" "b.gpkg" "bag" "neither").2 =
      .error .invalidTarget ∧
    (compare_columns sampleFS "2024-01-01" "a.xlsx" "id" "b.gpkg" "bag"
      "neither").1.logFile.isSome = true ∧
    (compare_columns sampleFS "2024-01-01" "a.xlsx" "id" "b.gpkg" "bag"
      "neither").1.resultFile = none := by
  refine ⟨by decide, by decide, by decide⟩

/-- C4 (amended): a successful run writes both artifacts; a failure during
loading or the column checks writes nothing; but an invalid target selector
fails only after the log artifact is written, leaving the log written and the
result table unwritten. -/
theorem c4_artifact_states (fs : FileSys) (now f1 c1 f2 c2 tgt lp op : String)
    (st : RunState) (r : Except Err Bundle)
    (h : compare_columns fs now f1 c1 f2 c2 tgt lp op = (st, r)) :
    ((∃ b, r = .ok b) → st.logFile.isSome = true ∧ st.resultFile.isSome = true) ∧
    (r = .error .invalidTarget → st.logFile.isSome = true ∧ st.resultFile = none) ∧
    (∀ e, r = .error e → e ≠ .invalidTarget → st = noWrites) := by
  unfold compare_columns at h
  cases hl1 : load_data fs f1 with
  | error e1 =>
    rw [hl1] at h
    dsimp only at h
    obtain ⟨rfl, rfl⟩ := Prod.mk.inj h
    refine ⟨?_, ?_, ?_⟩
    · rintro ⟨b, hb⟩; cases hb
    · intro hb
      injection hb with he
      exact absurd (he ▸ hl1) (load_data_not_invalidTarget fs f1)
    · intro e he hne; rfl
  | ok df1 =>
    rw [hl1] at h
    dsimp only at h
    cases hl2 : load_data fs f2 with
    | error e2 =>
      rw [hl2] at h
      dsimp only at h
      obtain ⟨rfl, rfl⟩ := Prod.mk.inj h
      refine ⟨?_, ?_, ?_⟩
      · rintro ⟨b, hb⟩; cases hb
      · intro hb
        injection hb with he
        exact absurd (he ▸ hl2) (load_data_not_invalidTarget fs f2)
      · intro e he hne; rfl
    | ok df2 =>
      rw [hl2] at h
      dsimp only at h
      by_cases hn1 : c1 ∉ columns df1
      · rw [if_pos hn1] at h
        obtain ⟨rfl, rfl⟩ := Prod.mk.inj h
        refine ⟨?_, ?_, ?_⟩
        · rintro ⟨b, hb⟩; cases hb
        · intro hb
          injection hb with he
          exact Err.noConfusion he
        · intro e he hne; rfl
      · rw [if_neg hn1] at h
        by_cases hn2 : c2 ∉ columns df2
        · rw [if_pos hn2] at h
          obtain ⟨rfl, rfl⟩ := Prod.mk.inj h
          refine ⟨?_, ?_, ?_⟩
          · rintro ⟨b, hb⟩; cases hb
          · intro hb
            injection hb with he
            exact Err.noConfusion he
          · intro e he hne; rfl
        · rw [if_neg hn2] at h
          by_cases hv : tgt = "file1" ∨ tgt = "file2"
          · have hsnd := compareLoaded_snd_valid now f1 c1 f2 c2 tgt lp op df1 df2 hv
            rw [h] at hsnd
            dsimp only at hsnd
            have hlog := compareLoaded_logFile now f1 c1 f2 c2 tgt lp op df1 df2
            rw [h] at hlog
            dsimp only at hlog
            have hres : st.resultFile.isSome = true := by
              rcases hv with rfl | rfl
              · have hr1 := compareLoaded_resultFile_file1 now f1 c1 f2 c2 lp op df1 df2
                rw [h] at hr1
                dsimp only at hr1
                rw [hr1]; rfl
              · have hr2 := compareLoaded_resultFile_file2 now f1 c1 f2 c2 lp op df1 df2
                rw [h] at hr2
                dsimp only at hr2
                rw [hr2]; rfl
            refine ⟨?_, ?_, ?_⟩
            · intro _
              exact ⟨by rw [hlog]; rfl, hres⟩
            · intro hb
              rw [hsnd] at hb
              cases hb
            · intro e he hne
              rw [hsnd] at he
              cases he
          · push_neg at hv
            rw [compareLoaded_invalid now f1 c1 f2 c2 tgt lp op df1 df2 hv.1 hv.2] at h
            obtain ⟨rfl, rfl⟩ := Prod.mk.inj h
            refine ⟨?_, ?_, ?_⟩
            · rintro ⟨b, hb⟩; cases hb
            · intro _; exact ⟨rfl, rfl⟩
            · intro e he hne
              injection he with he'
              exact absurd he'.symm hne

/-- Witness for C4 (amended): the invalid-target clause evaluated on the
sample run with selector "oops": log written, no result table. -/
theorem c4_artifact_states_witness :
    (compare_columns sampleFS "2024-01-01" "a.xlsx" "id" "b.gpkg" "bag"
      "oops").1.logFile.isSome = true ∧
    (compare_columns sampleFS "2024-01-01" "a.xlsx" "id" "b.gpkg" "bag"
      "oops").1.resultFile = none :=
  (c4_artifact_states sampleFS "2024-01-01" "a.xlsx" "id" "b.gpkg" "bag" "oops"
      "comparison_log.txt" "comparison_results.csv"
      (compare_columns sampleFS "2024-01-01" "a.xlsx" "id" "b.gpkg" "bag" "oops").1
      (compare_columns sampleFS "2024-01-01" "a.xlsx" "id" "b.gpkg" "bag" "oops").2
      rfl).2.1 (by decide)

/-- C5: the written result table lists all `in_both` identifiers first, then
all only-in-target identifiers, each block sorted lexicographically; its row
count is the sum of the two block lengths; no identifier repeats; and every
row's status is the literal `occur_both` or `occur_in_<target>`. -/
theorem c5_result_table (fs : FileSys) (now f1 c1 f2 c2 tgt lp op : String)
    (df1 df2 : Table) (st : RunState) (b : Bundle) (rt : ResultTable)
    (h1 : load_data fs f1 = .ok df1) (h2 : load_data fs f2 = .ok df2)
    (h : compare_columns fs now f1 c1 f2 c2 tgt lp op = (st, .ok b))
    (hrt : st.resultFile = some rt) :
    rt.id_col = (if tgt = "file1" then c1 else c2) ∧
    rt.rows = b.in_both.map (fun v => (v, "occur_both")) ++
      (if tgt = "file1" then b.only_in_file1 else b.only_in_file2).map
        (fun v => (v, "occur_in_" ++ tgt)) ∧
    rt.rows.length = b.in_both.length +
      (if tgt = "file1" then b.only_in_file1 else b.only_in_file2).length ∧
    (rt.rows.map Prod.fst).Nodup ∧
    b.in_both.Sorted pyLe ∧
    (if tgt = "file1" then b.only_in_file1 else b.only_in_file2).Sorted pyLe := by
  obtain ⟨hc1, hc2, hv, rfl, hst⟩ :=
    compare_ok_inv fs now f1 c1 f2 c2 tgt lp op df1 df2 st b h1 h2 h
  subst hst
  rcases hv with rfl | rfl
  · rw [compareLoaded_resultFile_file1] at hrt
    obtain rfl := Option.some.inj hrt
    refine ⟨by simp [buildResult, mkBundle], by simp [buildResult_rows, mkBundle],
      by simp [buildResult_rows, mkBundle], ?_, ?_, ?_⟩
    · have hfst : ((buildResult c1 (inBoth df1 c1 df2 c2) (onlyIn df1 c1 df2 c2)
          "file1").rows.map Prod.fst) =
          inBoth df1 c1 df2 c2 ++ onlyIn df1 c1 df2 c2 := by
        rw [buildResult_rows, List.map_append, List.map_map, List.map_map]
        simp [Function.comp_def]
      rw [hfst, List.nodup_append]
      refine ⟨pySortSet_nodup _, pySortSet_nodup _, ?_⟩
      intro x hx hy
      rw [inBoth, pySortSet_mem, Finset.mem_inter] at hx
      rw [onlyIn, pySortSet_mem, Finset.mem_sdiff] at hy
      exact hy.2 hx.2
    · simpa [mkBundle, inBoth] using
        pySortSet_sorted (validSet df1 c1 ∩ validSet df2 c2)
    · simpa [mkBundle, onlyIn] using
        pySortSet_sorted (validSet df1 c1 \ validSet df2 c2)
  · rw [compareLoaded_resultFile_file2] at hrt
    obtain rfl := Option.some.inj hrt
    have hne : ¬ ("file2" = "file1") := by decide
    refine ⟨by simp [buildResult, mkBundle, hne], by simp [buildResult_rows, mkBundle, hne],
      by simp [buildResult_rows, mkBundle, hne], ?_, ?_, ?_⟩
    · have hfst : ((buildResult c2 (inBoth df1 c1 df2 c2) (onlyIn df2 c2 df1 c1)
          "file2").rows.map Prod.fst) =
          inBoth df1 c1 df2 c2 ++ onlyIn df2 c2 df1 c1 := by
        rw [buildResult_rows, List.map_append, List.map_map, List.map_map]
        simp [Function.comp_def]
      rw [hfst, List.nodup_append]
      refine ⟨pySortSet_nodup _, pySortSet_nodup _, ?_⟩
      intro x hx hy
      rw [inBoth, pySortSet_mem, Finset.mem_inter] at hx
      rw [onlyIn, pySortSet_mem, Finset.mem_sdiff] at hy
      exact hy.2 hx.1
    · simpa [mkBundle, inBoth] using
        pySortSet_sorted (validSet df1 c1 ∩ validSet df2 c2)
    · simpa [mkBundle, onlyIn, hne] using
        pySortSet_sorted (validSet df2 c2 \ validSet df1 c1)

/-- Witness for C5: the row-count equation evaluated on the sample run with
the default target. -/
theorem c5_result_table_witness :
    (buildResult "bag" (inBoth tblA "id" tblB "bag")
        (onlyIn tblB "bag" tblA "id") "file2").rows.length =
      (mkBundle tblA "id" tblB "bag").in_both.length +
      (if "file2" = "file1" then (mkBundle tblA "id" tblB "bag").only_in_file1
       else (mkBundle tblA "id" tblB "bag").only_in_file2).length :=
  (c5_result_table sampleFS "2024-01-01" "a.xlsx" "id" "b.gpkg" "bag" "file2"
      "comparison_log.txt" "comparison_results.csv" tblA tblB
      (compare_columns sampleFS "2024-01-01" "a.xlsx" "id" "b.gpkg" "bag").1
      (mkBundle tblA "id" tblB "bag")
      (buildResult "bag" (inBoth tblA "id" tblB "bag")
        (onlyIn tblB "bag" tblA "id") "file2")
      rfl rfl rfl rfl).2.2.1

/-- C10: two runs on the same loaded tables and columns that differ only in
the (valid) target selector write the same log content, print the same
six-line console summary, and return the same five-set bundle; only the
result table may differ. -/
theorem c10_target_independence (fs : FileSys) (now f1 c1 f2 c2 t t2 lp op : String)
    (ht : t = "file1" ∨ t = "file2") (ht2 : t2 = "file1" ∨ t2 = "file2") :
    ((compare_columns fs now f1 c1 f2 c2 t lp op).1.logFile =
      (compare_columns fs now f1 c1 f2 c2 t2 lp op).1.logFile) ∧
    ((compare_columns fs now f1 c1 f2 c2 t lp op).1.console.take 6 =
      (compare_columns fs now f1 c1 f2 c2 t2 lp op).1.console.take 6) ∧
    ((compare_columns fs now f1 c1 f2 c2 t lp op).2 =
      (compare_columns fs now f1 c1 f2 c2 t2 lp op).2) := by
  cases hl1 : load_data fs f1 with
  | error e =>
    unfold compare_columns
    rw [hl1]
    exact ⟨rfl, rfl, rfl⟩
  | ok df1 =>
    cases hl2 : load_data fs f2 with
    | error e =>
      unfold compare_columns
      rw [hl1, hl2]
      exact ⟨rfl, rfl, rfl⟩
    | ok df2 =>
      by_cases hn1 : c1 ∉ columns df1
      · unfold compare_columns
        rw [hl1, hl2]
        dsimp only
        simp only [if_pos hn1]
        exact ⟨trivial, trivial, trivial⟩
      · by_cases hn2 : c2 ∉ columns df2
        · unfold compare_columns
          rw [hl1, hl2]
          dsimp only
          simp only [if_neg hn1, if_pos hn2]
          exact ⟨trivial, trivial, trivial⟩
        · rw [compare_eq_loaded fs now f1 c1 f2 c2 t lp op df1 df2 hl1 hl2
              (not_not.mp hn1) (not_not.mp hn2),
            compare_eq_loaded fs now f1 c1 f2 c2 t2 lp op df1 df2 hl1 hl2
              (not_not.mp hn1) (not_not.mp hn2)]
          refine ⟨?_, ?_, ?_⟩
          · rw [compareLoaded_logFile, compareLoaded_logFile]
          · rw [compareLoaded_console6, compareLoaded_console6]
          · rw [compareLoaded_snd_valid now f1 c1 f2 c2 t lp op df1 df2 ht,
              compareLoaded_snd_valid now f1 c1 f2 c2 t2 lp op df1 df2 ht2]

/-- Witness for C10: the sample run with target "file1" against the sample
run with target "file2". -/
theorem c10_target_independence_witness :
    ((compare_columns sampleFS "2024-01-01" "a.xlsx" "id" "b.gpkg" "bag"
        "file1").1.logFile =
      (compare_columns sampleFS "2024-01-01" "a.xlsx" "id" "b.gpkg" "bag"
        "file2").1.logFile) ∧
    ((compare_columns sampleFS "2024-01-01" "a.xlsx" "id" "b.gpkg" "bag"
        "file1").1.console.take 6 =
      (compare_columns sampleFS "2024-01-01" "a.xlsx" "id" "b.gpkg" "bag"
        "file2").1.console.take 6) ∧
    ((compare_columns sampleFS "2024-01-01" "a.xlsx" "id" "b.gpkg" "bag"
        "file1").2 =
      (compare_columns sampleFS "2024-01-01" "a.xlsx" "id" "b.gpkg" "bag"
        "file2").2) :=
  c10_target_independence sampleFS "2024-01-01" "a.xlsx" "id" "b.gpkg" "bag"
    "file1" "file2" "comparison_log.txt" "comparison_results.csv"
    (Or.inl rfl) (Or.inr rfl)

